import Mathlib

/-!
Verification development for the PINTS plugin lifecycle engine
(`pints/db.py` and `pints/cli.py`).

The engine is embedded shallowly: the manifest descriptor, the statements
each operation issues against the backing store, the connection open/close
events, and the error taxonomy are all modelled as Lean data.  Every
operation returns the list of events it produced (connection opens and
closes, statement executions), the resulting store state and a result
(`Except Err Unit`), mirroring the Python control flow including which
paths hold a `try/finally` around the connection and which do not.

The backing relational engine (DuckDB) is not part of this repository;
its statement semantics are modelled from the spec (store glossary, §4.4,
§5: `CREATE TABLE IF NOT EXISTS` is idempotent, `DELETE FROM` removes all
rows keeping the table, a single `INSERT` appends one row and commits on
its own).  Bulk `COPY` and opaque caller-authored SQL are kept abstract as
parameters of the semantics.
-/

/-- Value carried through the engine: callers pass strings or numbers as
action parameters (`cli._parse_params` coerces to float or keeps the
string); values are opaque cargo, never computed with. -/
inductive PVal where
  | str : String → PVal
  | num : Int → PVal
  deriving DecidableEq, Repr

/-- Staging column declaration from the manifest: `{name, type}`
(`staging.columns` entries). -/
structure ColumnSpec where
  name : String
  type : String
  deriving DecidableEq, Repr

/-- CSV load options from the manifest (`staging.load.csv`); an absent key
is `none` and the engine applies `header=True`, `autodetect=True`,
`delimiter=','` defaults (db.py lines 276-278). -/
structure CsvLoadSpec where
  header : Option Bool
  autodetect : Option Bool
  delimiter : Option String
  deriving DecidableEq, Repr

/-- Staging declaration from the manifest (`staging` key): table name and
ordered column list are optional, `load` collapses the
`(st.get("load") or \x7b\x7d).get("csv", \x7b\x7d)` chain (absent dicts
become the all-`none` option record). -/
structure StagingSpec where
  table : Option String
  columns : Option (List ColumnSpec)
  load : CsvLoadSpec
  deriving DecidableEq, Repr

/-- Declared action parameter (`params` entries): a name and an optional
default (`p.get("default")`). -/
structure ParamSpec where
  name : String
  default : Option PVal
  deriving DecidableEq, Repr

/-- Declared action (`actions` entries): name, SQL file reference and an
optional declared parameter list; `params = none` models the `params` key
being absent (the `"params" in meta` check in `plugin_action_run`). -/
structure ActionSpec where
  name : String
  file : String
  params : Option (List ParamSpec)
  deriving DecidableEq, Repr

/-- Parsed plugin manifest descriptor (the Manifest Loader's output):
optional schema file name, staging declaration and action list
(`m.get("actions") or []`). -/
structure Manifest where
  schema : Option String
  staging : StagingSpec
  actions : List ActionSpec
  deriving DecidableEq, Repr

/-- Python truthiness check on the staging declaration: `plugin_staging_create`
and `plugin_staging_load_csv` proceed only when `table` and `columns` are
both truthy (`if not table or not cols`, db.py lines 248, 271). -/
def StagingSpec.decl (st : StagingSpec) : Option (String × List ColumnSpec) :=
  let cols := st.columns.getD []
  match st.table with
  | none => none
  | some t => if t.isEmpty || cols.isEmpty then none else some (t, cols)

/-- Python truthiness check used by `plugin_staging_clear`, which looks only
at the table name (`if not table: return`, db.py line 259). -/
def StagingSpec.tableDecl (st : StagingSpec) : Option String :=
  match st.table with
  | none => none
  | some t => if t.isEmpty then none else some t

/-- Statement issued against the backing store.  `create`, `deleteAll` and
`insertRow` are the statements whose effect the claims need concretely;
`copyCsv`, `copyOut` and `raw` (caller-authored SQL with optional bound
values) are carried structurally and interpreted abstractly. -/
inductive Stmt where
  | create : String → List ColumnSpec → Stmt
  | deleteAll : String → Stmt
  | insertRow : String → List String → List String → Stmt
  | copyCsv : String → List String → String → List String → Stmt
  | copyOut : String → Option (List PVal) → Stmt
  | raw : String → Option (List (Option PVal)) → Stmt
  deriving DecidableEq, Repr

/-- Observable event of one engine operation: a store connection being
opened or closed, or a statement being executed on the open connection. -/
inductive Event where
  | openCon : Event
  | closeCon : Event
  | exec : Stmt → Event
  deriving DecidableEq, Repr

/-- Error taxonomy of the engine (spec §7), mapped from the Python
exceptions: `FileNotFoundError` for the schema file, `ValueError` for
undeclared staging, `KeyError` for an unknown action, `FileNotFoundError`
for the action file, `SystemExit` for a row field-count mismatch (the
raw row text is carried in the error, cli.py line 266), and any store
failure wrapped as `storeExec`. -/
inductive Err where
  | schemaFileMissing : Err
  | stagingUndeclared : Err
  | unknownAction : Err
  | actionFileMissing : Err
  | rowFieldCount : Nat → Nat → String → Err
  | storeExec : Err
  deriving DecidableEq, Repr

/-- State of one store table: its schema and its committed rows. -/
structure TableState where
  schema : List ColumnSpec
  rows : List (List String)
  deriving DecidableEq, Repr

/-- Store state: the tables present, in creation order. -/
abbrev DB := List (String × TableState)

/-- Plugin directory contents: relative path to file text, used for the
schema file and action SQL files. -/
abbrev FS := List (String × String)

/-- Result of one engine operation: the events it produced, the store
state it left behind and its outcome. -/
abbrev OpResult := List Event × DB × Except Err Unit

/-- Lookup of a table by name in the store state. -/
def dbLookup : DB → String → Option TableState
  | [], _ => none
  | (n, ts) :: rest, t => if n = t then some ts else dbLookup rest t

/-- Pointwise update of the table with the given name in the store state. -/
def dbUpdate : DB → String → (TableState → TableState) → DB
  | [], _, _ => []
  | (n, ts) :: rest, t, f =>
      if n = t then (n, f ts) :: dbUpdate rest t f
      else (n, ts) :: dbUpdate rest t f

/-- Lookup of a file by path in the plugin directory. -/
def fsLookup : FS → String → Option String
  | [], _ => none
  | (n, s) :: rest, f => if n = f then some s else fsLookup rest f

/-- Modelled from the spec: effect of a store statement on the store state.
The backing relational engine is external to this repository; per the spec
(glossary, §3 invariant (c), §5) `CREATE TABLE IF NOT EXISTS` creates the
table only when absent, `DELETE FROM` keeps the table and drops its rows,
and a single `INSERT` appends one committed row.  Bulk `COPY` and opaque
SQL text are delegated to the abstract interpretation `ext`. -/
def applyStmt (ext : Stmt → DB → DB) : Stmt → DB → DB
  | .create t cols, db =>
      match dbLookup db t with
      | some _ => db
      | none => db ++ [(t, ⟨cols, []⟩)]
  | .deleteAll t, db => dbUpdate db t (fun ts => ⟨ts.schema, []⟩)
  | .insertRow t _ vals, db => dbUpdate db t (fun ts => ⟨ts.schema, ts.rows ++ [vals]⟩)
  | s, db => ext s db

/-- Execution context: which statements the store rejects (`fails`, the
source of `duckdb.Error`-style failures) and the abstract semantics of the
statements the model does not interpret (`ext`).  A failing statement
leaves the store unchanged (single-statement atomicity, spec §5). -/
structure Ctx where
  fails : Stmt → Bool
  ext : Stmt → DB → DB

/-- Python whitespace set of `str.strip` / `str.rstrip` with no argument. -/
def pyIsSpace (c : Char) : Bool :=
  c = ' ' || c = '\t' || c = '\n' || c = '\r' || c = '\x0b' || c = '\x0c'

/-- Right strip of the characters satisfying `p` (Python `str.rstrip`). -/
def rstripP (p : Char → Bool) (s : String) : String :=
  ⟨(s.data.reverse.dropWhile p).reverse⟩

/-- Python `str.strip()`: whitespace removed from both ends. -/
def pyStrip (s : String) : String :=
  ⟨((s.data.dropWhile pyIsSpace).reverse.dropWhile pyIsSpace).reverse⟩

/-- Single-quote character, kept as a named constant. -/
def sqChar : Char := Char.ofNat 39

/-- Single-quote string. -/
def squo : String := String.singleton sqChar

/-- Translation of `str.replace` specialised to the one use in the source,
doubling every single quote (`.replace(chr(39), chr(39)*2)`). -/
def doubleQuotes : List Char → List Char
  | [] => []
  | c :: rest =>
      if c = sqChar then sqChar :: sqChar :: doubleQuotes rest
      else c :: doubleQuotes rest

/-- SQL string literal for a filesystem path
(`"'" + str(csv_path).replace("'", "''") + "'"`, db.py lines 117, 213, 279). -/
def pathLit (p : String) : String :=
  squo ++ (⟨doubleQuotes p.data⟩ : String) ++ squo

/-- Dict built by `_parse_params` / passed by callers: association pairs in
insertion order, where a later binding of the same key overwrites an
earlier one (Python dict semantics).  `dictGet` is `params.get(k)`. -/
def dictGet (ps : List (String × PVal)) (k : String) : Option PVal :=
  ps.foldl (fun acc kv => if kv.1 = k then some kv.2 else acc) none

/-- Action registry built by `_plugin_action_sql`
(`acts = \x7ba["name"]: a for a in (m.get("actions") or [])\x7d`,
db.py line 293): a later action with the same name overwrites an earlier
one, as in a Python dict comprehension. -/
def actsDict (l : List ActionSpec) (k : String) : Option ActionSpec :=
  l.foldl (fun acc a => if a.name = k then some a else acc) none

/-- Positional parameter binding of `plugin_action_run` (db.py lines
304-308): values stay `none` unless the caller map is truthy (non-empty)
and the action declares a `params` key; then the declared order is
iterated and each name takes the caller value when present, else the
declared default. -/
def actionValues (meta : ActionSpec) (params : Option (List (String × PVal))) :
    Option (List (Option PVal)) :=
  match params with
  | none => none
  | some ps =>
      if ps.isEmpty then none
      else
        match meta.params with
        | none => none
        | some decl =>
            some (decl.map (fun p => (dictGet ps p.name).orElse (fun _ => p.default)))

/-- Translation of `PintsDB.run_sql` (db.py lines 151-165): connect,
execute inside `try/finally con.close()`, so the connection close event is
emitted on the failing path as well. -/
def run_sql (c : Ctx) (sql : String) (vals : Option (List (Option PVal))) (db : DB) :
    OpResult :=
  let s := Stmt.raw sql vals
  if c.fails s then ([.openCon, .exec s, .closeCon], db, .error .storeExec)
  else ([.openCon, .exec s, .closeCon], applyStmt c.ext s db, .ok ())

/-- Translation of `PintsDB.migrate` (db.py lines 144-149): connect,
execute, close — with no `try/finally`, so a failing execution skips the
close. -/
def migrate (c : Ctx) (sql : String) (db : DB) : OpResult :=
  let s := Stmt.raw sql none
  if c.fails s then ([.openCon, .exec s], db, .error .storeExec)
  else ([.openCon, .exec s, .closeCon], applyStmt c.ext s db, .ok ())

/-- Translation of `PintsDB.plugin_install` (db.py lines 234-240): resolve
the schema file name with the fixed default `"plugin.sql"`
(`manifest.get("schema", "plugin.sql")`), fail when the file is absent,
else apply it through `migrate`.  Operations take the already-loaded
manifest descriptor; the loader is deterministic (spec §4.1). -/
def plugin_install (c : Ctx) (m : Manifest) (fs : FS) (db : DB) : OpResult :=
  let schemaFile := m.schema.getD "plugin.sql"
  match fsLookup fs schemaFile with
  | none => ([], db, .error .schemaFileMissing)
  | some sql => migrate c sql db

/-- Translation of `PintsDB.plugin_staging_create` (db.py lines 243-253):
return silently when the manifest declares no staging table or columns,
else connect, issue `CREATE TABLE IF NOT EXISTS` over the declared columns
in declared order and close (no `try/finally`). -/
def plugin_staging_create (c : Ctx) (m : Manifest) (db : DB) : OpResult :=
  match m.staging.decl with
  | none => ([], db, .ok ())
  | some (t, cols) =>
      let s := Stmt.create t cols
      if c.fails s then ([.openCon, .exec s], db, .error .storeExec)
      else ([.openCon, .exec s, .closeCon], applyStmt c.ext s db, .ok ())

/-- Translation of `PintsDB.plugin_staging_clear` (db.py lines 255-263):
return silently when no staging table is declared, else connect, issue
`DELETE FROM` and close (no `try/finally`). -/
def plugin_staging_clear (c : Ctx) (m : Manifest) (db : DB) : OpResult :=
  match m.staging.tableDecl with
  | none => ([], db, .ok ())
  | some t =>
      let s := Stmt.deleteAll t
      if c.fails s then ([.openCon, .exec s], db, .error .storeExec)
      else ([.openCon, .exec s, .closeCon], applyStmt c.ext s db, .ok ())

/-- COPY option list of `plugin_staging_load_csv` (db.py lines 276-284):
manifest defaults `header=True`, `autodetect=True`, `delimiter=','`;
a true `autodetect` becomes `AUTO_DETECT TRUE` while a false one becomes
the empty string, and the final list keeps the truthy entries in the
order autodetect, header, delimiter. -/
def copyOpts (load : CsvLoadSpec) : List String :=
  let header := load.header.getD true
  let autodetect := load.autodetect.getD true
  let delim := load.delimiter.getD ","
  let header_opt := if header then "HEADER" else "HEADER FALSE"
  let autod_opt := if autodetect then "AUTO_DETECT TRUE" else ""
  let delim_opt := if !delim.isEmpty then "DELIMITER " ++ squo ++ delim ++ squo else ""
  [autod_opt, header_opt, delim_opt].filter (fun o => !o.isEmpty)

/-- Connect-and-copy tail of `plugin_staging_load_csv` (db.py lines
285-287): issue the COPY over exactly the declared column names in
declared order, with no `try/finally` around the close. -/
def load_csv_copy_step (c : Ctx) (m : Manifest) (csvPath : String)
    (t : String) (cols : List ColumnSpec) (db : DB) : OpResult :=
  let s := Stmt.copyCsv t (cols.map ColumnSpec.name) csvPath (copyOpts m.staging.load)
  if c.fails s then ([.openCon, .exec s], db, .error .storeExec)
  else ([.openCon, .exec s, .closeCon], applyStmt c.ext s db, .ok ())

/-- Translation of `PintsDB.plugin_staging_load_csv` (db.py lines 265-287):
fail with the staging-undeclared error before touching the store when the
manifest declares no staging table or columns; otherwise ensure the table
exists via `plugin_staging_create`, then bulk-load the CSV. -/
def plugin_staging_load_csv (c : Ctx) (m : Manifest) (csvPath : String) (db : DB) :
    OpResult :=
  match m.staging.decl with
  | none => ([], db, .error .stagingUndeclared)
  | some (t, cols) =>
      match plugin_staging_create c m db with
      | (tr1, db1, .error e) => (tr1, db1, .error e)
      | (tr1, db1, .ok _) =>
          match load_csv_copy_step c m csvPath t cols db1 with
          | (tr2, db2, r2) => (tr1 ++ tr2, db2, r2)

/-- Translation of `PintsDB._plugin_action_sql` (db.py lines 290-299):
resolve the action name in the manifest registry first (`KeyError` when
absent), then the action's SQL file (`FileNotFoundError` when absent),
returning the SQL text and the action descriptor. -/
def plugin_action_sql (m : Manifest) (fs : FS) (action : String) :
    Except Err (String × ActionSpec) :=
  match actsDict m.actions action with
  | none => .error .unknownAction
  | some a =>
      match fsLookup fs a.file with
      | none => .error .actionFileMissing
      | some sql => .ok (sql, a)

/-- Translation of `PintsDB.plugin_action_run` (db.py lines 301-309):
resolve the action, bind parameters positionally in manifest order via
`actionValues`, and execute through `run_sql`. -/
def plugin_action_run (c : Ctx) (m : Manifest) (fs : FS) (action : String)
    (params : Option (List (String × PVal))) (db : DB) : OpResult :=
  match plugin_action_sql m fs action with
  | .error e => ([], db, .error e)
  | .ok (sql, meta) => run_sql c sql (actionValues meta params) db

/-- Right-strip applied by `export_sql` before embedding the SELECT:
`select_sql.rstrip().rstrip(';')` (db.py line 211). -/
def stripSql (s : String) : String :=
  rstripP (fun ch => ch = ';') (rstripP pyIsSpace s)

/-- COPY TO command string of `export_sql` (db.py lines 216-218):
`f"COPY (\x7bselect_sql\x7d) TO \x7bpath_lit\x7d (DELIMITER ',', \x7bheader_clause\x7d);"`. -/
def copyOutCmd (sel : String) (csvPath : String) (header : Bool) : String :=
  "COPY (" ++ sel ++ ") TO " ++ pathLit csvPath ++
    " (DELIMITER " ++ squo ++ "," ++ squo ++ ", " ++
    (if header then "HEADER" else "HEADER FALSE") ++ ");"

/-- Translation of `PintsDB.export_sql` (db.py lines 208-219): strip the
query, build the COPY command, connect, execute (with the bound values
when the caller passed a truthy parameter list) and close, with no
`try/finally`. -/
def export_sql (c : Ctx) (select_sql : String) (csvPath : String) (header : Bool)
    (params : Option (List PVal)) (db : DB) : OpResult :=
  let sql2 := stripSql select_sql
  let vals := match params with
    | none => none
    | some l => if l.isEmpty then none else some l
  let s := Stmt.copyOut (copyOutCmd sql2 csvPath header) vals
  if c.fails s then ([.openCon, .exec s], db, .error .storeExec)
  else ([.openCon, .exec s, .closeCon], applyStmt c.ext s db, .ok ())

/-- Translation of `PintsDB.plugin_export` (db.py lines 311-314): resolve
the action's SQL and export its result through `export_sql`. -/
def plugin_export (c : Ctx) (m : Manifest) (fs : FS) (out_csv : String)
    (action : String) (header : Bool) (db : DB) : OpResult :=
  match plugin_action_sql m fs action with
  | .error e => ([], db, .error e)
  | .ok (sql, _) => export_sql c sql out_csv header none db

/-- Sequencing of two operations the way Python exception propagation
behaves: the second runs only when the first succeeded, events
concatenate, and a failure keeps the store state the earlier steps
produced (no unwinding). -/
def opThen (r : OpResult) (k : DB → OpResult) : OpResult :=
  match r with
  | (tr, db, .error e) => (tr, db, .error e)
  | (tr, db, .ok _) =>
      match k db with
      | (tr2, db2, r2) => (tr ++ tr2, db2, r2)

/-- Translation of `cli.cmd_plugin_apply` (cli.py lines 220-228): install,
create staging, load the CSV, run the `materialize` action with no
parameters, and clear staging only when the flag is set; an exception
from any step propagates and skips the remaining steps. -/
def cmd_plugin_apply (c : Ctx) (m : Manifest) (fs : FS) (csv : String)
    (clear_staging : Bool) (db : DB) : OpResult :=
  match plugin_install c m fs db with
  | (tr1, db1, .error e) => (tr1, db1, .error e)
  | (tr1, db1, .ok _) =>
      match plugin_staging_create c m db1 with
      | (tr2, db2, .error e) => (tr1 ++ tr2, db2, .error e)
      | (tr2, db2, .ok _) =>
          match plugin_staging_load_csv c m csv db2 with
          | (tr3, db3, .error e) => (tr1 ++ tr2 ++ tr3, db3, .error e)
          | (tr3, db3, .ok _) =>
              match plugin_action_run c m fs "materialize" none db3 with
              | (tr4, db4, .error e) => (tr1 ++ tr2 ++ tr3 ++ tr4, db4, .error e)
              | (tr4, db4, .ok _) =>
                  if clear_staging then
                    match plugin_staging_clear c m db4 with
                    | (tr5, db5, r5) => (tr1 ++ tr2 ++ tr3 ++ tr4 ++ tr5, db5, r5)
                  else (tr1 ++ tr2 ++ tr3 ++ tr4, db4, .ok ())

/-- Splitting loop of Python `str.split(sep)` for a non-empty separator:
non-overlapping occurrences are cut left to right; the fuel argument (the
input length bounds the number of steps) keeps the recursion structural. -/
def pySplitGo (sep : List Char) : Nat → List Char → List Char → List (List Char)
  | 0, l, acc => [acc.reverse ++ l]
  | fuel + 1, l, acc =>
      match l with
      | [] => [acc.reverse]
      | ch :: rest =>
          if sep.isPrefixOf (ch :: rest) then
            acc.reverse :: pySplitGo sep fuel (List.drop sep.length (ch :: rest)) []
          else pySplitGo sep fuel rest (ch :: acc)

/-- Translation of Python `s.split(sep)`.  Python raises on an empty
separator; the model returns the string unsplit in that case, which no
claim exercises (the CLI delimiter defaults to `","`). -/
def pySplit (s : String) (sep : String) : List String :=
  if sep.data.isEmpty then [s]
  else (pySplitGo sep.data s.data.length s.data []).map (fun l => (⟨l⟩ : String))

/-- Field list of one CLI row: `[p.strip() for p in row_str.split(delim)]`
(cli.py line 263). -/
def rowParts (delim : String) (row : String) : List String :=
  (pySplit row delim).map pyStrip

/-- Insertion loop of `cli.cmd_plugin_insert` (cli.py lines 261-269), run
on the single connection the command opened: each row is split and its
field count checked against the declared column count before any store
call for that row; on a mismatch the loop stops with an error carrying
the raw row text, leaving the rows already inserted committed. -/
def insertRowsGo (c : Ctx) (t : String) (colNames : List String) (ncols : Nat)
    (delim : String) : List String → DB → List Event × DB × Except Err Unit
  | [], db => ([], db, .ok ())
  | r :: rest, db =>
      let parts := rowParts delim r
      if parts.length ≠ ncols then
        ([], db, .error (.rowFieldCount parts.length ncols r))
      else
        let s := Stmt.insertRow t colNames parts
        if c.fails s then ([.exec s], db, .error .storeExec)
        else
          match insertRowsGo c t colNames ncols delim rest (applyStmt c.ext s db) with
          | (tr, db2, res) => (.exec s :: tr, db2, res)

/-- Translation of `cli.cmd_plugin_insert` (cli.py lines 231-278): check
the staging declaration, ensure the staging table exists, open one
connection, insert the rows one at a time in input order inside
`try/finally con.close()` (so the loop connection closes on the failing
path too), and optionally run the `materialize` action afterwards. -/
def cmd_plugin_insert (c : Ctx) (m : Manifest) (fs : FS) (rows : List String)
    (delim : String) (mat : Bool) (db : DB) : OpResult :=
  match m.staging.decl with
  | none => ([], db, .error .stagingUndeclared)
  | some (t, cols) =>
      let colNames := cols.map ColumnSpec.name
      let ncols := colNames.length
      match plugin_staging_create c m db with
      | (tr1, db1, .error e) => (tr1, db1, .error e)
      | (tr1, db1, .ok _) =>
          match insertRowsGo c t colNames ncols delim rows db1 with
          | (tr2, db2, .error e) =>
              (tr1 ++ [.openCon] ++ tr2 ++ [.closeCon], db2, .error e)
          | (tr2, db2, .ok _) =>
              if mat then
                match plugin_action_run c m fs "materialize" none db2 with
                | (tr3, db3, r3) =>
                    (tr1 ++ [.openCon] ++ tr2 ++ [.closeCon] ++ tr3, db3, r3)
              else (tr1 ++ [.openCon] ++ tr2 ++ [.closeCon], db2, .ok ())

/-- Test for a connection-open event. -/
def isOpenCon : Event → Bool
  | .openCon => true
  | _ => false

/-- Test for a connection-close event. -/
def isCloseCon : Event → Bool
  | .closeCon => true
  | _ => false

/-- Number of connections opened in a trace. -/
def countOpen (tr : List Event) : Nat := (tr.filter isOpenCon).length

/-- Number of connections closed in a trace. -/
def countClose (tr : List Event) : Nat := (tr.filter isCloseCon).length

/-- A trace leaves no dangling store handle when every opened connection
was closed again. -/
def balancedTrace (tr : List Event) : Prop := countClose tr = countOpen tr

/-- Store context in which every statement succeeds and the abstract
statements leave the store unchanged. -/
def ctx0 : Ctx := ⟨fun _ => false, fun _ db => db⟩

/-- Store context in which exactly the bulk CSV COPY statement fails
(for example, a CSV whose columns do not match the staging table). -/
def ctxCopyFail : Ctx :=
  ⟨fun s => match s with | .copyCsv _ _ _ _ => true | _ => false, fun _ db => db⟩

/-- Staging columns of the spec's end-to-end scenario. -/
def cols0 : List ColumnSpec :=
  [⟨"run_id", "TEXT"⟩, ⟨"feature_id", "TEXT"⟩, ⟨"component_id", "TEXT"⟩]

/-- Declared parameters of the sample `materialize` action. -/
def declM : List ParamSpec := [⟨"x", some (.num 1)⟩, ⟨"y", none⟩]

/-- Sample `materialize` action descriptor. -/
def act0 : ActionSpec := ⟨"materialize", "materialize.sql", some declM⟩

/-- SQL text of the sample `materialize` action. -/
def sqlM : String := "INSERT INTO components SELECT * FROM intra_run_components"

/-- Sample manifest with staging and one parameterised action. -/
def m0 : Manifest :=
  ⟨some "plugin.sql", ⟨some "intra_run_components", some cols0, ⟨none, none, none⟩⟩, [act0]⟩

/-- Sample plugin directory holding the schema file and the action SQL. -/
def fs0 : FS := [("plugin.sql", "CREATE TABLE IF NOT EXISTS components (x TEXT)"),
                 ("materialize.sql", sqlM)]

/-- Sample manifest that declares no staging at all. -/
def mNoStaging : Manifest := ⟨some "plugin.sql", ⟨none, none, ⟨none, none, none⟩⟩, []⟩

/-- Sample manifest whose top-level `schema` key is absent. -/
def mNoSchema : Manifest := ⟨none, ⟨none, none, ⟨none, none, none⟩⟩, []⟩

/-- Claim C2, counterexample: `loadCsv` does not close its store connection
on the failing exit path.  On a manifest with declared staging, when the
bulk COPY statement raises, the operation's trace holds two connection
opens (one from the inner `createStaging`, one for the COPY) but only one
close: the COPY connection is left dangling because `plugin_staging_load_csv`
has no `try/finally` around `con.close()` (db.py lines 285-287). -/
theorem load_csv_error_leaves_connection_open :
    countOpen (plugin_staging_load_csv ctxCopyFail m0 "in.csv" []).1 = 2 ∧
    countClose (plugin_staging_load_csv ctxCopyFail m0 "in.csv" []).1 = 1 ∧
    (plugin_staging_load_csv ctxCopyFail m0 "in.csv" []).2.2 = .error .storeExec := by
  refine ⟨rfl, rfl, rfl⟩

/-- Claim C4, counterexample: a manifest value `autodetect: false` is not
expressed in the bulk-load command at all.  The emitted option list is
exactly `HEADER, DELIMITER ','` with no auto-detect directive (in
particular no `AUTO_DETECT FALSE`), so the loader's auto-detection
behavior is left to the store's own default rather than determined by the
manifest's false value (db.py line 281 maps false to the empty string,
which the option filter then drops). -/
theorem copy_opts_autodetect_false_dropped :
    copyOpts ⟨none, some false, none⟩ =
      ["HEADER", "DELIMITER " ++ squo ++ "," ++ squo] ∧
    ("AUTO_DETECT FALSE" ∈ copyOpts ⟨none, some false, none⟩ → False) ∧
    ("AUTO_DETECT TRUE" ∈ copyOpts ⟨none, some false, none⟩ → False) := by
  refine ⟨by decide, by decide, by decide⟩

/-- Claim C10, counterexample: a query whose trailing decoration puts
whitespace before a semicolon is only partially stripped, so its export
command differs from the command for the query with the trailing
characters removed.  `"SELECT 1 ;".rstrip().rstrip(';')` leaves
`"SELECT 1 "` (trailing space kept), not `"SELECT 1"`, and the two COPY
command strings (and hence the executed statements) differ. -/
theorem export_cmd_trailing_mix_differs :
    stripSql "SELECT 1 ;" = "SELECT 1 " ∧
    copyOutCmd (stripSql "SELECT 1 ;") "out.csv" true ≠
      copyOutCmd (stripSql "SELECT 1") "out.csv" true ∧
    (export_sql ctx0 "SELECT 1 ;" "out.csv" true none []).1 ≠
      (export_sql ctx0 "SELECT 1" "out.csv" true none []).1 := by
  refine ⟨by decide, by decide, by decide⟩

/-- Claim C9: a manifest that omits the top-level `schema` key does not
make `install` fail on the missing key; the engine falls back to the fixed
default file name `"plugin.sql"` under the plugin root, and the
schema-file-missing error arises only when that default file is itself
absent (db.py line 237: `manifest.get("schema", "plugin.sql")`). -/
theorem plugin_install_default_schema (c : Ctx) (m : Manifest) (fs : FS) (db : DB)
    (hschema : m.schema = none) :
    plugin_install c m fs db =
      (match fsLookup fs "plugin.sql" with
       | none => ([], db, Except.error Err.schemaFileMissing)
       | some sql => migrate c sql db) := by
  simp [plugin_install, hschema]

/-- Witness for `plugin_install_default_schema` at a schema-less manifest
and an empty plugin directory. -/
theorem plugin_install_default_schema_witness :
    plugin_install ctx0 mNoSchema [] [] =
      (match fsLookup [] "plugin.sql" with
       | none => ([], ([] : DB), Except.error Err.schemaFileMissing)
       | some sql => migrate ctx0 sql []) :=
  plugin_install_default_schema ctx0 mNoSchema [] [] rfl

/-- Claim C6: `runAction` resolves the action name against the manifest's
action registry first and fails with the unknown-action error when absent,
regardless of the filesystem; when the name resolves but the referenced
SQL file is missing under the plugin root it fails with the
action-file-missing error; and in both failure cases the operation
produces no store events at all (no SQL is executed) and leaves the store
unchanged (db.py lines 290-299). -/
theorem action_resolution_order (c : Ctx) (m : Manifest) (fs : FS) (action : String)
    (params : Option (List (String × PVal))) (db : DB) :
    (actsDict m.actions action = none →
      plugin_action_sql m fs action = .error .unknownAction) ∧
    (∀ a, actsDict m.actions action = some a → fsLookup fs a.file = none →
      plugin_action_sql m fs action = .error .actionFileMissing) ∧
    (∀ e, plugin_action_sql m fs action = .error e →
      plugin_action_run c m fs action params db = ([], db, .error e)) := by
  refine ⟨?_, ?_, ?_⟩
  · intro h
    simp [plugin_action_sql, h]
  · intro a ha hf
    simp [plugin_action_sql, ha, hf]
  · intro e he
    simp [plugin_action_run, he]

/-- Witness for `action_resolution_order`: the sample manifest has no
action named `"cleanup"`, so resolution fails with the unknown-action
error and running it leaves the store untouched. -/
theorem action_resolution_order_witness :
    plugin_action_sql m0 fs0 "cleanup" = .error .unknownAction ∧
    plugin_action_run ctx0 m0 fs0 "cleanup" none [] =
      ([], ([] : DB), .error .unknownAction) := by
  refine ⟨(action_resolution_order ctx0 m0 fs0 "cleanup" none []).1 rfl, ?_⟩
  exact (action_resolution_order ctx0 m0 fs0 "cleanup" none []).2.2 .unknownAction
    ((action_resolution_order ctx0 m0 fs0 "cleanup" none []).1 rfl)

/-- Claim C5: `loadCsv` on a manifest with no truthy staging table or
columns fails with the staging-undeclared error before touching the store
(no events, store unchanged); on a manifest with declared staging it first
runs `createStaging` and only then performs the bulk-load step
(db.py lines 271-287). -/
theorem load_csv_staging_guard (c : Ctx) (m : Manifest) (csv : String) (db : DB) :
    (m.staging.decl = none →
      plugin_staging_load_csv c m csv db = ([], db, .error .stagingUndeclared)) ∧
    (∀ t cols, m.staging.decl = some (t, cols) →
      plugin_staging_load_csv c m csv db =
        opThen (plugin_staging_create c m db) (load_csv_copy_step c m csv t cols)) := by
  constructor
  · intro h
    simp [plugin_staging_load_csv, h]
  · intro t cols h
    rcases hc : plugin_staging_create c m db with ⟨tr1, db1, r1⟩
    rcases r1 with e | u
    · simp [plugin_staging_load_csv, h, hc, opThen]
    · rcases hs : load_csv_copy_step c m csv t cols db1 with ⟨tr2, db2, r2⟩
      simp [plugin_staging_load_csv, h, hc, hs, opThen]

/-- Witness for `load_csv_staging_guard` on the staging-less sample
manifest: the operation fails with the staging-undeclared error and emits
no store events. -/
theorem load_csv_staging_guard_witness :
    plugin_staging_load_csv ctx0 mNoStaging "in.csv" [] =
      ([], ([] : DB), .error .stagingUndeclared) :=
  (load_csv_staging_guard ctx0 mNoStaging "in.csv" []).1 rfl

/-- Claim C1: for an action that declares parameters, `runAction` with no
parameter mapping at all (`None` or an empty map) executes the action's
SQL with no bound values — declared defaults are not injected — while a
non-empty partial map builds the positional value list by iterating the
declared parameter order, taking the caller value for each declared name
when present and the declared default otherwise (db.py lines 304-309).
The `run_sql` trace is the same on success and failure, so the bound
values are read off the single executed statement. -/
theorem plugin_action_run_param_binding (c : Ctx) (m : Manifest) (fs : FS)
    (action sql : String) (meta : ActionSpec) (decl : List ParamSpec) (db : DB)
    (hres : plugin_action_sql m fs action = .ok (sql, meta))
    (hdecl : meta.params = some decl) :
    (plugin_action_run c m fs action none db).1 =
      [.openCon, .exec (.raw sql none), .closeCon] ∧
    (plugin_action_run c m fs action (some []) db).1 =
      [.openCon, .exec (.raw sql none), .closeCon] ∧
    (∀ ps : List (String × PVal), ps ≠ [] →
      (plugin_action_run c m fs action (some ps) db).1 =
        [.openCon, .exec (.raw sql (some (decl.map
          (fun p => (dictGet ps p.name).orElse (fun _ => p.default))))), .closeCon]) := by
  have hrun : ∀ vals, (run_sql c sql vals db).1 =
      [.openCon, .exec (.raw sql vals), .closeCon] := by
    intro vals
    simp only [run_sql]
    split <;> rfl
  refine ⟨?_, ?_, ?_⟩
  · simp only [plugin_action_run, hres]
    exact hrun none
  · simp only [plugin_action_run, hres]
    have hv : actionValues meta (some []) = none := by simp [actionValues]
    rw [hv]
    exact hrun none
  · intro ps hps
    rcases ps with _ | ⟨p, ps⟩
    · exact absurd rfl hps
    · have hv : actionValues meta (some (p :: ps)) =
          some (decl.map (fun q => (dictGet (p :: ps) q.name).orElse (fun _ => q.default))) := by
        simp [actionValues, hdecl]
      simp only [plugin_action_run, hres]
      rw [hv]
      exact hrun _

/-- Witness for `plugin_action_run_param_binding` on the sample manifest:
with no parameters the SQL runs unbound; with the partial map `x := 7`
the positional list takes the caller's `x` and the default for `y`
(which is absent, hence a null binding). -/
theorem plugin_action_run_param_binding_witness :
    (plugin_action_run ctx0 m0 fs0 "materialize" none []).1 =
      [.openCon, .exec (.raw sqlM none), .closeCon] ∧
    (plugin_action_run ctx0 m0 fs0 "materialize" (some [("x", PVal.num 7)]) []).1 =
      [.openCon, .exec (.raw sqlM (some [some (PVal.num 7), none])), .closeCon] := by
  constructor
  · exact (plugin_action_run_param_binding ctx0 m0 fs0 "materialize" sqlM act0 declM []
      rfl rfl).1
  · exact (plugin_action_run_param_binding ctx0 m0 fs0 "materialize" sqlM act0 declM []
      rfl rfl).2.2 [("x", PVal.num 7)] (by decide)

/-- Appending a fresh table at the end is found by lookup when the name
was absent before. -/
theorem dbLookup_append_of_none (db : DB) (t : String) (x : TableState)
    (h : dbLookup db t = none) : dbLookup (db ++ [(t, x)]) t = some x := by
  induction db with
  | nil => simp [dbLookup]
  | cons p rest ih =>
      rcases p with ⟨n, ts⟩
      by_cases hn : n = t
      · subst hn
        simp [dbLookup] at h
      · rw [List.cons_append]
        simp only [dbLookup, hn, if_false] at h ⊢
        exact ih h

/-- Lookup through a pointwise table update. -/
theorem dbLookup_dbUpdate (db : DB) (t : String) (f : TableState → TableState) :
    dbLookup (dbUpdate db t f) t = (dbLookup db t).map f := by
  induction db with
  | nil => rfl
  | cons p rest ih =>
      rcases p with ⟨n, ts⟩
      by_cases hn : n = t
      · subst hn
        simp [dbUpdate, dbLookup]
      · simp [dbUpdate, dbLookup, hn, ih]

/-- Store-level idempotence of `CREATE TABLE IF NOT EXISTS`: a second
creation of the same table is a no-op. -/
theorem applyStmt_create_idem (ext : Stmt → DB → DB) (t : String)
    (cols : List ColumnSpec) (db : DB) :
    applyStmt ext (.create t cols) (applyStmt ext (.create t cols) db) =
      applyStmt ext (.create t cols) db := by
  simp only [applyStmt]
  cases h : dbLookup db t with
  | none => simp [dbLookup_append_of_none db t ⟨cols, []⟩ h]
  | some ts => simp [h]

/-- Claim C7: `createStaging` is a silent no-op (no events, store and
result untouched) on a manifest with no truthy staging declaration; on a
declared manifest it issues exactly one `CREATE TABLE IF NOT EXISTS` over
the declared columns in declared order, and running it a second time
right after the first does not raise and leaves the store state exactly
as one call left it (db.py lines 243-253). -/
theorem staging_create_idempotent (c : Ctx) (m : Manifest) (db : DB) :
    (m.staging.decl = none → plugin_staging_create c m db = ([], db, .ok ())) ∧
    (∀ t cols, m.staging.decl = some (t, cols) →
      c.fails (Stmt.create t cols) = false →
      plugin_staging_create c m db =
        ([Event.openCon, Event.exec (Stmt.create t cols), Event.closeCon],
         applyStmt c.ext (Stmt.create t cols) db, .ok ()) ∧
      plugin_staging_create c m (applyStmt c.ext (Stmt.create t cols) db) =
        ([Event.openCon, Event.exec (Stmt.create t cols), Event.closeCon],
         applyStmt c.ext (Stmt.create t cols) db, .ok ())) := by
  constructor
  · intro h
    simp [plugin_staging_create, h]
  · intro t cols h hf
    constructor
    · simp [plugin_staging_create, h, hf]
    · simp [plugin_staging_create, h, hf, applyStmt_create_idem]

/-- Witness for `staging_create_idempotent` on the sample staged manifest
with a store that accepts the DDL: the second call returns the same
events, the same store state and success. -/
theorem staging_create_idempotent_witness :
    plugin_staging_create ctx0 m0 [] =
      ([Event.openCon, Event.exec (Stmt.create "intra_run_components" cols0),
        Event.closeCon],
       applyStmt ctx0.ext (Stmt.create "intra_run_components" cols0) [], .ok ()) ∧
    plugin_staging_create ctx0 m0
        (applyStmt ctx0.ext (Stmt.create "intra_run_components" cols0) []) =
      ([Event.openCon, Event.exec (Stmt.create "intra_run_components" cols0),
        Event.closeCon],
       applyStmt ctx0.ext (Stmt.create "intra_run_components" cols0) [], .ok ()) :=
  (staging_create_idempotent ctx0 m0 []).2 "intra_run_components" cols0 rfl rfl

/-- Claim C8: `apply` is exactly the sequence install, then createStaging,
then loadCsv on the given CSV path, then `runAction("materialize")`, then
clearStaging only when the clear flag is set, chained so that a failing
step stops the sequence and the store keeps the state the earlier steps
produced — `opThen` propagates the first error without touching the store
state any further, so no earlier step is unwound (cli.py lines 220-228). -/
theorem apply_step_sequence (c : Ctx) (m : Manifest) (fs : FS) (csv : String)
    (clear_staging : Bool) (db : DB) :
    cmd_plugin_apply c m fs csv clear_staging db =
      opThen (plugin_install c m fs db) (fun db1 =>
        opThen (plugin_staging_create c m db1) (fun db2 =>
          opThen (plugin_staging_load_csv c m csv db2) (fun db3 =>
            opThen (plugin_action_run c m fs "materialize" none db3) (fun db4 =>
              if clear_staging then plugin_staging_clear c m db4
              else ([], db4, .ok ()))))) := by
  rcases h1 : plugin_install c m fs db with ⟨tr1, db1, r1⟩
  rcases r1 with e1 | u1
  · simp [cmd_plugin_apply, opThen, h1]
  · rcases h2 : plugin_staging_create c m db1 with ⟨tr2, db2, r2⟩
    rcases r2 with e2 | u2
    · simp [cmd_plugin_apply, opThen, h1, h2]
    · rcases h3 : plugin_staging_load_csv c m csv db2 with ⟨tr3, db3, r3⟩
      rcases r3 with e3 | u3
      · simp [cmd_plugin_apply, opThen, h1, h2, h3]
      · rcases h4 : plugin_action_run c m fs "materialize" none db3 with ⟨tr4, db4, r4⟩
        rcases r4 with e4 | u4
        · simp [cmd_plugin_apply, opThen, h1, h2, h3, h4]
        · rcases h5 : plugin_staging_clear c m db4 with ⟨tr5, db5, r5⟩
          cases clear_staging <;>
            simp [cmd_plugin_apply, opThen, h1, h2, h3, h4, h5, List.append_assoc]

/-- Behaviour of the insertion loop on a row list whose first field-count
mismatch sits after a prefix of well-formed rows the store accepts: the
prefix is executed one row at a time in input order, the loop stops at the
mismatched row with an error carrying its raw text, and neither the
mismatched row nor any later row reaches the store. -/
theorem insertRowsGo_first_mismatch (c : Ctx) (t : String) (colNames : List String)
    (delim : String) (good : List String) (bad : String) (rest : List String) (db : DB)
    (hgood : ∀ r ∈ good, (rowParts delim r).length = colNames.length)
    (hgoodok : ∀ r ∈ good, c.fails (Stmt.insertRow t colNames (rowParts delim r)) = false)
    (hbad : (rowParts delim bad).length ≠ colNames.length) :
    insertRowsGo c t colNames colNames.length delim (good ++ bad :: rest) db =
      (good.map (fun r => Event.exec (Stmt.insertRow t colNames (rowParts delim r))),
       good.foldl
         (fun d r => applyStmt c.ext (Stmt.insertRow t colNames (rowParts delim r)) d) db,
       .error (.rowFieldCount (rowParts delim bad).length colNames.length bad)) := by
  induction good generalizing db with
  | nil =>
      simp only [List.nil_append, insertRowsGo, List.map_nil, List.foldl_nil]
      simp [hbad]
  | cons r good ih =>
      have h1 : (rowParts delim r).length = colNames.length := hgood r (by simp)
      have h2 : c.fails (Stmt.insertRow t colNames (rowParts delim r)) = false :=
        hgoodok r (by simp)
      have ihr := ih
        (applyStmt c.ext (Stmt.insertRow t colNames (rowParts delim r)) db)
        (fun q hq => hgood q (by simp [hq]))
        (fun q hq => hgoodok q (by simp [hq]))
      simp only [List.cons_append, insertRowsGo, h1, ne_eq, not_true_eq_false,
        if_false, h2, List.map_cons, List.foldl_cons]
      simp [ihr]

/-- Rows inserted by the loop are appended to the staging table's committed
rows, in input order. -/
theorem dbLookup_insert_foldl (c : Ctx) (t : String) (colNames : List String)
    (delim : String) (good : List String) (d : DB) (ts : TableState)
    (h : dbLookup d t = some ts) :
    dbLookup
      (good.foldl
        (fun d r => applyStmt c.ext (Stmt.insertRow t colNames (rowParts delim r)) d) d) t =
      some ⟨ts.schema, ts.rows ++ good.map (rowParts delim)⟩ := by
  induction good generalizing d ts with
  | nil => simpa using h
  | cons r good ih =>
      simp only [List.foldl_cons, List.map_cons]
      have hstep : dbLookup (applyStmt c.ext (Stmt.insertRow t colNames (rowParts delim r)) d) t
          = some ⟨ts.schema, ts.rows ++ [rowParts delim r]⟩ := by
        simp [applyStmt, dbLookup_dbUpdate, h]
      rw [ih _ _ hstep]
      simp

/-- Claim C3: for a direct-row insertion whose first mismatched row follows
a prefix of well-formed rows, the operation creates staging, opens one
connection, inserts the well-formed prefix one row at a time in input
order, fails with an error that carries the mismatched row's raw text
before that row is sent to the store (its check precedes any store call),
attempts no later row, closes the loop connection, and leaves every
previously inserted row committed in the staging table
(cli.py lines 259-271). -/
theorem cmd_plugin_insert_first_mismatch (c : Ctx) (m : Manifest) (fs : FS)
    (delim : String) (mat : Bool) (db : DB) (t : String) (cols : List ColumnSpec)
    (good : List String) (bad : String) (rest : List String)
    (hdecl : m.staging.decl = some (t, cols))
    (hgood : ∀ r ∈ good, (rowParts delim r).length = (cols.map ColumnSpec.name).length)
    (hgoodok : ∀ r ∈ good,
      c.fails (Stmt.insertRow t (cols.map ColumnSpec.name) (rowParts delim r)) = false)
    (hbad : (rowParts delim bad).length ≠ (cols.map ColumnSpec.name).length)
    (hcreate : c.fails (Stmt.create t cols) = false)
    (hfresh : dbLookup db t = none) :
    cmd_plugin_insert c m fs (good ++ bad :: rest) delim mat db =
      ([Event.openCon, Event.exec (Stmt.create t cols), Event.closeCon, Event.openCon] ++
        good.map (fun r =>
          Event.exec (Stmt.insertRow t (cols.map ColumnSpec.name) (rowParts delim r))) ++
        [Event.closeCon],
       good.foldl
         (fun d r =>
           applyStmt c.ext (Stmt.insertRow t (cols.map ColumnSpec.name) (rowParts delim r)) d)
         (db ++ [(t, ⟨cols, []⟩)]),
       .error (.rowFieldCount (rowParts delim bad).length
         (cols.map ColumnSpec.name).length bad)) ∧
    dbLookup (cmd_plugin_insert c m fs (good ++ bad :: rest) delim mat db).2.1 t =
      some ⟨cols, good.map (rowParts delim)⟩ := by
  have hloop := insertRowsGo_first_mismatch c t (cols.map ColumnSpec.name) delim
    good bad rest (db ++ [(t, ⟨cols, []⟩)]) hgood hgoodok hbad
  have hcreated : applyStmt c.ext (Stmt.create t cols) db = db ++ [(t, ⟨cols, []⟩)] := by
    simp [applyStmt, hfresh]
  have hmain : cmd_plugin_insert c m fs (good ++ bad :: rest) delim mat db =
      ([Event.openCon, Event.exec (Stmt.create t cols), Event.closeCon, Event.openCon] ++
        good.map (fun r =>
          Event.exec (Stmt.insertRow t (cols.map ColumnSpec.name) (rowParts delim r))) ++
        [Event.closeCon],
       good.foldl
         (fun d r =>
           applyStmt c.ext (Stmt.insertRow t (cols.map ColumnSpec.name) (rowParts delim r)) d)
         (db ++ [(t, ⟨cols, []⟩)]),
       .error (.rowFieldCount (rowParts delim bad).length
         (cols.map ColumnSpec.name).length bad)) := by
    simp only [cmd_plugin_insert, hdecl, plugin_staging_create, hcreate, if_false,
      Bool.false_eq_true, hcreated, hloop]
    simp
  refine ⟨hmain, ?_⟩
  rw [hmain]
  exact dbLookup_insert_foldl c t (cols.map ColumnSpec.name) delim good
    (db ++ [(t, ⟨cols, []⟩)]) ⟨cols, []⟩
    (dbLookup_append_of_none db t ⟨cols, []⟩ hfresh)

/-- Witness for `cmd_plugin_insert_first_mismatch`: one well-formed row is
inserted and committed, the second row has two fields instead of three,
so the operation stops there with the raw row text in the error and never
attempts the third row. -/
theorem cmd_plugin_insert_first_mismatch_witness :
    cmd_plugin_insert ctx0 m0 fs0
        ["R001, R001_F0001 ,C001", "R001,R001_F0002", "R001,R001_F0003,C001"]
        "," false [] =
      ([Event.openCon, Event.exec (Stmt.create "intra_run_components" cols0),
        Event.closeCon, Event.openCon,
        Event.exec (Stmt.insertRow "intra_run_components"
          ["run_id", "feature_id", "component_id"] ["R001", "R001_F0001", "C001"]),
        Event.closeCon],
       [("intra_run_components", ⟨cols0, [["R001", "R001_F0001", "C001"]]⟩)],
       .error (.rowFieldCount 2 3 "R001,R001_F0002")) := by
  have h := (cmd_plugin_insert_first_mismatch ctx0 m0 fs0 "," false []
    "intra_run_components" cols0 ["R001, R001_F0001 ,C001"] "R001,R001_F0002"
    ["R001,R001_F0003,C001"] rfl (by decide) (by decide) (by decide) rfl rfl).1
  exact h.trans rfl

/-- Open-connection count distributes over trace concatenation. -/
theorem countOpen_append (a b : List Event) :
    countOpen (a ++ b) = countOpen a + countOpen b := by
  simp [countOpen, List.filter_append]

/-- Close-connection count distributes over trace concatenation. -/
theorem countClose_append (a b : List Event) :
    countClose (a ++ b) = countClose a + countClose b := by
  simp [countClose, List.filter_append]

/-- The `run_sql` trace is balanced on both exit paths, thanks to the
`try/finally con.close()` in the source. -/
theorem run_sql_balanced (c : Ctx) (sql : String) (vals : Option (List (Option PVal)))
    (db : DB) : balancedTrace (run_sql c sql vals db).1 := by
  simp only [run_sql]
  split <;> rfl

/-- The `runAction` trace is balanced on every exit path: resolution
failures issue no store events and the execution itself goes through
`run_sql`. -/
theorem plugin_action_run_balanced (c : Ctx) (m : Manifest) (fs : FS) (action : String)
    (params : Option (List (String × PVal))) (db : DB) :
    balancedTrace (plugin_action_run c m fs action params db).1 := by
  simp only [plugin_action_run]
  rcases plugin_action_sql m fs action with e | ⟨sql, meta⟩
  · rfl
  · exact run_sql_balanced c sql (actionValues meta params) db

/-- The insertion loop emits only statement-execution events: it neither
opens nor closes connections itself. -/
theorem insertRowsGo_no_con (c : Ctx) (t : String) (colNames : List String) (ncols : Nat)
    (delim : String) (rows : List String) (db : DB) :
    countOpen (insertRowsGo c t colNames ncols delim rows db).1 = 0 ∧
    countClose (insertRowsGo c t colNames ncols delim rows db).1 = 0 := by
  induction rows generalizing db with
  | nil => exact ⟨rfl, rfl⟩
  | cons r rest ih =>
      simp only [insertRowsGo]
      by_cases h1 : (rowParts delim r).length ≠ ncols
      · simp [h1, countOpen, countClose]
      · simp only [h1, if_false]
        cases h2 : c.fails (Stmt.insertRow t colNames (rowParts delim r))
        · simp only [Bool.false_eq_true, if_false]
          rcases hr : insertRowsGo c t colNames ncols delim rest
              (applyStmt c.ext (Stmt.insertRow t colNames (rowParts delim r)) db) with
            ⟨tr, db2, res⟩
          have := ih (applyStmt c.ext (Stmt.insertRow t colNames (rowParts delim r)) db)
          rw [hr] at this
          simpa [countOpen, countClose, isOpenCon, isCloseCon] using this
        · simp [countOpen, countClose, isOpenCon, isCloseCon]

/-- A `createStaging` call that succeeded closed what it opened. -/
theorem plugin_staging_create_ok_balanced (c : Ctx) (m : Manifest) (db : DB)
    (h : (plugin_staging_create c m db).2.2 = .ok ()) :
    balancedTrace (plugin_staging_create c m db).1 := by
  rcases hd : m.staging.decl with _ | ⟨t, cols⟩
  · simp only [plugin_staging_create, hd]
    rfl
  · by_cases hf : c.fails (Stmt.create t cols) = true
    · simp [plugin_staging_create, hd, hf] at h
    · simp only [Bool.not_eq_true] at hf
      simp only [plugin_staging_create, hd, hf, Bool.false_eq_true, if_false]
      rfl

/-- A `migrate` call that succeeded closed its connection. -/
theorem migrate_ok_balanced (c : Ctx) (sql : String) (db : DB)
    (h : (migrate c sql db).2.2 = .ok ()) : balancedTrace (migrate c sql db).1 := by
  by_cases hf : c.fails (Stmt.raw sql none) = true
  · simp [migrate, hf] at h
  · simp only [Bool.not_eq_true] at hf
    simp only [migrate, hf, Bool.false_eq_true, if_false]
    rfl

/-- An `install` call that succeeded closed its connection. -/
theorem plugin_install_ok_balanced (c : Ctx) (m : Manifest) (fs : FS) (db : DB)
    (h : (plugin_install c m fs db).2.2 = .ok ()) :
    balancedTrace (plugin_install c m fs db).1 := by
  rcases hl : fsLookup fs (m.schema.getD "plugin.sql") with _ | sql
  · simp [plugin_install, hl] at h
  · simp only [plugin_install, hl] at h ⊢
    exact migrate_ok_balanced c sql db h

/-- A `clearStaging` call that succeeded closed its connection. -/
theorem plugin_staging_clear_ok_balanced (c : Ctx) (m : Manifest) (db : DB)
    (h : (plugin_staging_clear c m db).2.2 = .ok ()) :
    balancedTrace (plugin_staging_clear c m db).1 := by
  rcases hd : m.staging.tableDecl with _ | t
  · simp only [plugin_staging_clear, hd]
    rfl
  · by_cases hf : c.fails (Stmt.deleteAll t) = true
    · simp [plugin_staging_clear, hd, hf] at h
    · simp only [Bool.not_eq_true] at hf
      simp only [plugin_staging_clear, hd, hf, Bool.false_eq_true, if_false]
      rfl

/-- A `loadCsv` call that succeeded closed both of its connections. -/
theorem plugin_staging_load_csv_ok_balanced (c : Ctx) (m : Manifest) (csv : String)
    (db : DB) (h : (plugin_staging_load_csv c m csv db).2.2 = .ok ()) :
    balancedTrace (plugin_staging_load_csv c m csv db).1 := by
  rcases hd : m.staging.decl with _ | ⟨t, cols⟩
  · simp [plugin_staging_load_csv, hd] at h
  · rcases hc : plugin_staging_create c m db with ⟨tr1, db1, r1⟩
    rcases r1 with e | u
    · simp [plugin_staging_load_csv, hd, hc] at h
    · have hbal1 : balancedTrace (plugin_staging_create c m db).1 :=
        plugin_staging_create_ok_balanced c m db (by rw [hc])
      rw [hc] at hbal1
      by_cases hf : c.fails (Stmt.copyCsv t (cols.map ColumnSpec.name) csv
          (copyOpts m.staging.load)) = true
      · simp [plugin_staging_load_csv, hd, hc, load_csv_copy_step, hf] at h
      · simp only [Bool.not_eq_true] at hf
        simp only [plugin_staging_load_csv, hd, hc, load_csv_copy_step, hf,
          Bool.false_eq_true, if_false]
        simp only [balancedTrace] at hbal1 ⊢
        simp only [countOpen_append, countClose_append]
        have ho : countOpen [Event.openCon,
            Event.exec (Stmt.copyCsv t (cols.map ColumnSpec.name) csv
              (copyOpts m.staging.load)), Event.closeCon] = 1 := rfl
        have hcl : countClose [Event.openCon,
            Event.exec (Stmt.copyCsv t (cols.map ColumnSpec.name) csv
              (copyOpts m.staging.load)), Event.closeCon] = 1 := rfl
        omega

/-- An `export` call that succeeded closed its connection. -/
theorem export_sql_ok_balanced (c : Ctx) (q p : String) (header : Bool)
    (params : Option (List PVal)) (db : DB)
    (h : (export_sql c q p header params db).2.2 = .ok ()) :
    balancedTrace (export_sql c q p header params db).1 := by
  simp only [export_sql] at h ⊢
  split at h
  · exact absurd h (by simp)
  · split
    · simp_all
    · rfl

/-- A `plugin_export` call that succeeded closed its connection. -/
theorem plugin_export_ok_balanced (c : Ctx) (m : Manifest) (fs : FS) (out : String)
    (action : String) (header : Bool) (db : DB)
    (h : (plugin_export c m fs out action header db).2.2 = .ok ()) :
    balancedTrace (plugin_export c m fs out action header db).1 := by
  rcases hr : plugin_action_sql m fs action with e | ⟨sql, meta⟩
  · simp only [plugin_export, hr]
    rfl
  · simp only [plugin_export, hr] at h ⊢
    exact export_sql_ok_balanced c sql out header none db h

/-- An `insertRows` call whose staging-creation step succeeded closes the
loop connection on every exit path, including a row rejection partway
through. -/
theorem cmd_plugin_insert_create_ok_balanced (c : Ctx) (m : Manifest) (fs : FS)
    (rows : List String) (delim : String) (mat : Bool) (db : DB)
    (h : (plugin_staging_create c m db).2.2 = .ok ()) :
    balancedTrace (cmd_plugin_insert c m fs rows delim mat db).1 := by
  have hbal1 : balancedTrace (plugin_staging_create c m db).1 :=
    plugin_staging_create_ok_balanced c m db h
  rcases hd : m.staging.decl with _ | ⟨t, cols⟩
  · simp only [cmd_plugin_insert, hd]
    rfl
  · rcases hc : plugin_staging_create c m db with ⟨tr1, db1, r1⟩
    rw [hc] at h hbal1
    rcases r1 with e | u
    · exact absurd h (by simp)
    · rcases hg : insertRowsGo c t (cols.map ColumnSpec.name)
          (cols.map ColumnSpec.name).length delim rows db1 with ⟨tr2, db2, r2⟩
      have hno := insertRowsGo_no_con c t (cols.map ColumnSpec.name)
        (cols.map ColumnSpec.name).length delim rows db1
      rw [hg] at hno
      have hno1 : countOpen tr2 = 0 := hno.1
      have hno2 : countClose tr2 = 0 := hno.2
      simp only [balancedTrace] at hbal1
      have hbal1c : countClose tr1 = countOpen tr1 := hbal1
      rcases r2 with e2 | u2
      · simp only [cmd_plugin_insert, hd, hc, hg]
        simp only [balancedTrace, countOpen_append, countClose_append]
        have e1 : countOpen [Event.openCon] = 1 := rfl
        have e2c : countClose [Event.openCon] = 0 := rfl
        have e3 : countOpen [Event.closeCon] = 0 := rfl
        have e4 : countClose [Event.closeCon] = 1 := rfl
        omega
      · rcases ha : plugin_action_run c m fs "materialize" none db2 with ⟨tr3, db3, r3⟩
        have hb3 := plugin_action_run_balanced c m fs "materialize" none db2
        rw [ha] at hb3
        simp only [balancedTrace] at hb3
        cases mat
        · simp only [cmd_plugin_insert, hd, hc, hg, Bool.false_eq_true, if_false]
          simp only [balancedTrace, countOpen_append, countClose_append]
          have e1 : countOpen [Event.openCon] = 1 := rfl
          have e2c : countClose [Event.openCon] = 0 := rfl
          have e3 : countOpen [Event.closeCon] = 0 := rfl
          have e4 : countClose [Event.closeCon] = 1 := rfl
          omega
        · simp only [cmd_plugin_insert, hd, hc, hg, if_true, ha]
          simp only [balancedTrace, countOpen_append, countClose_append]
          have e1 : countOpen [Event.openCon] = 1 := rfl
          have e2c : countClose [Event.openCon] = 0 := rfl
          have e3 : countOpen [Event.closeCon] = 0 := rfl
          have e4 : countClose [Event.closeCon] = 1 := rfl
          omega

/-- Claim C2 (amended): connection-release discipline per operation.
`runAction` (through `run_sql`, which holds a `try/finally con.close()`)
releases its connection on every exit path, and `insertRows` closes its
row-insertion connection on every exit path once its staging-creation
step has succeeded; the remaining store operations — install,
createStaging, clearStaging, loadCsv and export — release their
connection only on the successful path, a raised statement error leaving
the handle unclosed (see the counterexample on `loadCsv`). -/
theorem connection_release_discipline (c : Ctx) :
    (∀ sql vals db, balancedTrace (run_sql c sql vals db).1) ∧
    (∀ m fs action params db,
      balancedTrace (plugin_action_run c m fs action params db).1) ∧
    (∀ m fs rows delim mat db, (plugin_staging_create c m db).2.2 = .ok () →
      balancedTrace (cmd_plugin_insert c m fs rows delim mat db).1) ∧
    (∀ m fs db, (plugin_install c m fs db).2.2 = .ok () →
      balancedTrace (plugin_install c m fs db).1) ∧
    (∀ m db, (plugin_staging_create c m db).2.2 = .ok () →
      balancedTrace (plugin_staging_create c m db).1) ∧
    (∀ m db, (plugin_staging_clear c m db).2.2 = .ok () →
      balancedTrace (plugin_staging_clear c m db).1) ∧
    (∀ m csv db, (plugin_staging_load_csv c m csv db).2.2 = .ok () →
      balancedTrace (plugin_staging_load_csv c m csv db).1) ∧
    (∀ q p header params db, (export_sql c q p header params db).2.2 = .ok () →
      balancedTrace (export_sql c q p header params db).1) ∧
    (∀ m fs out action header db,
      (plugin_export c m fs out action header db).2.2 = .ok () →
      balancedTrace (plugin_export c m fs out action header db).1) :=
  ⟨fun sql vals db => run_sql_balanced c sql vals db,
   fun m fs action params db => plugin_action_run_balanced c m fs action params db,
   fun m fs rows delim mat db h =>
     cmd_plugin_insert_create_ok_balanced c m fs rows delim mat db h,
   fun m fs db h => plugin_install_ok_balanced c m fs db h,
   fun m db h => plugin_staging_create_ok_balanced c m db h,
   fun m db h => plugin_staging_clear_ok_balanced c m db h,
   fun m csv db h => plugin_staging_load_csv_ok_balanced c m csv db h,
   fun q p header params db h => export_sql_ok_balanced c q p header params db h,
   fun m fs out action header db h =>
     plugin_export_ok_balanced c m fs out action header db h⟩

/-- Witness for `connection_release_discipline`: a concrete `insertRows`
run that rejects its second row still closes the loop connection, and a
concrete `runAction` run is balanced. -/
theorem connection_release_discipline_witness :
    balancedTrace (cmd_plugin_insert ctx0 m0 fs0
      ["R001,R001_F0001,C001", "R001,R001_F0002"] "," false []).1 ∧
    balancedTrace (plugin_action_run ctx0 m0 fs0 "materialize" none []).1 :=
  ⟨(connection_release_discipline ctx0).2.2.1 m0 fs0
      ["R001,R001_F0001,C001", "R001,R001_F0002"] "," false [] rfl,
   (connection_release_discipline ctx0).2.1 m0 fs0 "materialize" none []⟩

/-- A delimiter clause is never the empty string, whatever the delimiter
text, so the option filter always keeps it. -/
theorem delim_clause_isEmpty_false (d : String) :
    ("DELIMITER " ++ squo ++ d ++ squo).isEmpty = false := by
  cases hb : ("DELIMITER " ++ squo ++ d ++ squo).isEmpty with
  | false => rfl
  | true =>
      exfalso
      have hs : "DELIMITER " ++ squo ++ d ++ squo = "" := (String.isEmpty_iff _).mp hb
      have hd := congrArg (fun s => s.data.length) hs
      simp only [String.data_append, List.length_append, List.length_nil] at hd
      have h10 : ("DELIMITER " : String).data.length = 10 := rfl
      have h0 : ("" : String).data.length = 0 := rfl
      have hsq : squo.data.length = 1 := rfl
      omega

/-- Structure of the emitted COPY option list: the header clause is always
present and encodes the manifest value, the delimiter clause is present
with the manifest value exactly when the delimiter is non-empty, and the
auto-detect clause `AUTO_DETECT TRUE` appears exactly when the manifest
value (default true) is true — a false value emits no clause at all. -/
theorem copyOpts_eq (L : CsvLoadSpec) :
    copyOpts L =
      (if L.autodetect.getD true then ["AUTO_DETECT TRUE"] else []) ++
      [if L.header.getD true then "HEADER" else "HEADER FALSE"] ++
      (if (L.delimiter.getD ",").isEmpty then []
       else ["DELIMITER " ++ squo ++ L.delimiter.getD "," ++ squo]) := by
  rcases L with ⟨hh, ha, hd⟩
  have h1 : ("AUTO_DETECT TRUE" : String).isEmpty = false := rfl
  have h2 : ("HEADER" : String).isEmpty = false := rfl
  have h3 : ("HEADER FALSE" : String).isEmpty = false := rfl
  have h4 : ("" : String).isEmpty = true := rfl
  simp only [copyOpts]
  cases hae : ha.getD true <;> cases hhe : hh.getD true <;>
    cases hde : (hd.getD ",").isEmpty <;>
      simp [List.filter, h1, h2, h3, h4, hde, delim_clause_isEmpty_false]

/-- Claim C4 (amended): `loadCsv` on a declared manifest executes a bulk
COPY over exactly the declared column names in declared order; the option
list honors the header value (`HEADER` or `HEADER FALSE`) and the
delimiter value (`DELIMITER '<d>'` whenever non-empty), with defaults
header=true, autodetect=true, delimiter=','; auto-detection true is
expressed as `AUTO_DETECT TRUE` while false emits no clause, deferring to
the store default (db.py lines 276-287). -/
theorem load_csv_copy_command (c : Ctx) (m : Manifest) (csv : String) (db : DB)
    (t : String) (cols : List ColumnSpec)
    (hdecl : m.staging.decl = some (t, cols))
    (hcreate : c.fails (Stmt.create t cols) = false) :
    Event.exec (Stmt.copyCsv t (cols.map ColumnSpec.name) csv (copyOpts m.staging.load)) ∈
      (plugin_staging_load_csv c m csv db).1 ∧
    copyOpts m.staging.load =
      (if m.staging.load.autodetect.getD true then ["AUTO_DETECT TRUE"] else []) ++
      [if m.staging.load.header.getD true then "HEADER" else "HEADER FALSE"] ++
      (if (m.staging.load.delimiter.getD ",").isEmpty then []
       else ["DELIMITER " ++ squo ++ m.staging.load.delimiter.getD "," ++ squo]) := by
  refine ⟨?_, copyOpts_eq m.staging.load⟩
  simp only [plugin_staging_load_csv, hdecl, plugin_staging_create, hcreate,
    Bool.false_eq_true, if_false, load_csv_copy_step]
  by_cases hf : c.fails (Stmt.copyCsv t (cols.map ColumnSpec.name) csv
      (copyOpts m.staging.load)) = true
  · simp [hf]
  · simp only [Bool.not_eq_true] at hf
    simp [hf]

/-- Sample manifest with explicit load options: header off, auto-detect
on, delimiter `|`. -/
def mLoad : Manifest :=
  ⟨some "plugin.sql",
   ⟨some "stg", some [⟨"a", "TEXT"⟩], ⟨some false, some true, some "|"⟩⟩, []⟩

/-- Witness for `load_csv_copy_command` on the explicit-options manifest. -/
theorem load_csv_copy_command_witness :
    Event.exec (Stmt.copyCsv "stg"
        (([⟨"a", "TEXT"⟩] : List ColumnSpec).map ColumnSpec.name)
        "d.csv" (copyOpts mLoad.staging.load)) ∈
      (plugin_staging_load_csv ctx0 mLoad "d.csv" []).1 ∧
    copyOpts mLoad.staging.load =
      (if mLoad.staging.load.autodetect.getD true then ["AUTO_DETECT TRUE"] else []) ++
      [if mLoad.staging.load.header.getD true then "HEADER" else "HEADER FALSE"] ++
      (if (mLoad.staging.load.delimiter.getD ",").isEmpty then []
       else ["DELIMITER " ++ squo ++ mLoad.staging.load.delimiter.getD "," ++ squo]) :=
  load_csv_copy_command ctx0 mLoad "d.csv" [] "stg" [⟨"a", "TEXT"⟩] rfl rfl

/-- Dropping through a front segment whose elements all satisfy the
predicate reaches the remainder. -/
theorem dropWhile_append_all {α : Type} (p : α → Bool) (a b : List α)
    (h : ∀ x ∈ a, p x = true) : (a ++ b).dropWhile p = b.dropWhile p := by
  induction a with
  | nil => rfl
  | cons x xs ih =>
      rw [List.cons_append, List.dropWhile_cons_of_pos (h x (by simp))]
      exact ih (fun y hy => h y (by simp [hy]))

/-- Data-level form of the export strip: reverse, drop the whitespace,
then drop the semicolons, then reverse back. -/
theorem stripSql_data (s : String) :
    stripSql s =
      ⟨((s.data.reverse.dropWhile pyIsSpace).dropWhile
          (fun ch => ch = ';')).reverse⟩ := by
  simp [stripSql, rstripP, List.reverse_reverse]

/-- A query on which the export strip is the identity has no trailing
whitespace and no trailing semicolons. -/
theorem stripSql_eq_self_facts (q : String) (h : stripSql q = q) :
    q.data.reverse.dropWhile pyIsSpace = q.data.reverse ∧
    q.data.reverse.dropWhile (fun ch => ch = ';') = q.data.reverse := by
  have hd : ((q.data.reverse.dropWhile pyIsSpace).dropWhile
      (fun ch => ch = ';')).reverse = q.data :=
    congrArg String.data ((stripSql_data q).symm.trans h)
  have h1 : (q.data.reverse.dropWhile pyIsSpace).dropWhile (fun ch => ch = ';')
      = q.data.reverse := by
    have := congrArg List.reverse hd
    simpa using this
  have hsuf1 : q.data.reverse.dropWhile pyIsSpace <:+ q.data.reverse :=
    List.dropWhile_suffix _
  have hsuf2 : (q.data.reverse.dropWhile pyIsSpace).dropWhile (fun ch => ch = ';') <:+
      q.data.reverse.dropWhile pyIsSpace := List.dropWhile_suffix _
  have hlen2 := hsuf2.sublist.length_le
  have hlen1 := hsuf1.sublist.length_le
  rw [h1] at hlen2
  have hlen : (q.data.reverse.dropWhile pyIsSpace).length = q.data.reverse.length := by
    omega
  have ha : q.data.reverse.dropWhile pyIsSpace = q.data.reverse :=
    hsuf1.eq_of_length hlen
  refine ⟨ha, ?_⟩
  rw [ha] at h1
  exact h1

/-- Claim C10 (amended): appending a run of semicolons followed by a run
of whitespace to a query with no trailing whitespace or semicolons leaves
the `export_sql` operation (and its COPY command) unchanged — the two
`rstrip` passes remove exactly such a suffix.  A suffix interleaving
whitespace before a semicolon is out of scope: it is only partially
stripped (see the counterexample). -/
theorem export_sql_trailing_normalized (c : Ctx) (q w csvPath : String) (k : Nat)
    (header : Bool) (params : Option (List PVal)) (db : DB)
    (hclean : stripSql q = q) (hw : ∀ ch ∈ w.data, pyIsSpace ch = true) :
    export_sql c (q ++ String.mk (List.replicate k ';') ++ w) csvPath header params db =
      export_sql c q csvPath header params db := by
  have hfacts := stripSql_eq_self_facts q hclean
  have hs : stripSql (q ++ String.mk (List.replicate k ';') ++ w) = q := by
    rw [stripSql_data]
    have hdata : (q ++ String.mk (List.replicate k ';') ++ w).data
        = q.data ++ List.replicate k ';' ++ w.data := by
      simp [String.data_append]
    rw [hdata, List.reverse_append, List.reverse_append, List.reverse_replicate]
    rw [dropWhile_append_all pyIsSpace w.data.reverse _
      (fun x hx => hw x (List.mem_reverse.mp hx))]
    cases k with
    | zero =>
        simp only [List.replicate_zero, List.nil_append]
        rw [hfacts.1, hfacts.2, List.reverse_reverse]
    | succ n =>
        rw [List.replicate_succ, List.cons_append,
          List.dropWhile_cons_of_neg (by decide)]
        rw [← List.cons_append, ← List.replicate_succ]
        rw [dropWhile_append_all (fun ch => ch = ';') (List.replicate (n + 1) ';')
          q.data.reverse (fun x hx => by
            have := List.eq_of_mem_replicate hx
            simp [this])]
        rw [hfacts.2, List.reverse_reverse]
  simp only [export_sql, hs, hclean]

/-- Witness for `export_sql_trailing_normalized`: two trailing semicolons
and trailing blanks on a clean query export identically to the clean
query. -/
theorem export_sql_trailing_normalized_witness :
    export_sql ctx0 ("SELECT 1" ++ String.mk (List.replicate 2 ';') ++ "  ")
        "out.csv" true none [] =
      export_sql ctx0 "SELECT 1" "out.csv" true none [] :=
  export_sql_trailing_normalized ctx0 "SELECT 1" "  " "out.csv" 2 true none []
    (by decide) (by decide)
